import Mathlib

/-!
# Verification of the Quota-Bounded Sync & Diff-Driven Publish Pipeline

Shallow embedding of the core logic of `mayhem_maker.py` (quota ledger,
refresh scheduler, paginated discovery, render-diff-publish pipeline,
progress composer), with theorems settling the frozen claims.

Conventions of the embedding:
* Python `int` is modelled as `Int`; Pacific-timezone dates are modelled as
  `Int` day ordinals, ordered as dates are; the impure `_today_pacific()`
  becomes an explicit `today : Int` parameter.
* Python timestamps (`utcnow()`, parsed `fetched_at`) are modelled as `Int`
  instants; only their ordering matters to the code under verification.
* Python dicts are association lists updated in place at the first matching
  key (exactly the observable behaviour of a Python dict, whose keys are
  unique); sets are membership-tested lists.
* Network calls (`yt_get`-based fetchers) are modelled by oracles: a
  function from input to the classified outcome the Python code branches
  on (success payload / HTTP 304 / raised `QuotaExceeded` / other raised
  exception).  Quota charging follows the source exactly: a charge happens
  precisely where `add_quota_usage` is called in the source.
* File persistence (`save_quota`, `save_cache`) is fail-soft I/O with no
  effect on the in-memory state being verified, and is omitted; `load_quota`
  takes the decoded file content as an explicit argument.
-/

namespace MM

/-! ## Python dict as an association list -/

/-- Python `d.get(k, default)`: value at the first occurrence of `k`, else the default. -/
def dictGet : List (String × Int) → String → Int → Int
  | [], _, d => d
  | p :: rest, k, d => if p.1 = k then p.2 else dictGet rest k d

/-- Python `d[k]` presence and value: `some` of the first binding of `k`, else `none`. -/
def dictFind : List (String × Int) → String → Option Int
  | [], _ => none
  | p :: rest, k => if p.1 = k then some p.2 else dictFind rest k

/-- Python `d[k] = v`: replace the first binding of `k`, else append a new binding
(Python dicts preserve insertion order and update in place). -/
def dictSet : List (String × Int) → String → Int → List (String × Int)
  | [], k, v => [(k, v)]
  | p :: rest, k, v => if p.1 = k then (k, v) :: rest else p :: dictSet rest k v

/-- Python `sum(d.values())` over the association-list model of a dict. -/
def dictValuesSum (l : List (String × Int)) : Int :=
  (l.map Prod.snd).sum

/-! ## Quota ledger (`mayhem_maker.py` lines 102–112, 516–585) -/

/-- Source constant `DAILY_QUOTA_LIMIT = 10000`. -/
def DAILY_QUOTA_LIMIT : Int := 10000

/-- Source table `API_COSTS`: fixed cost table, call-type name to units. -/
def API_COSTS : List (String × Int) :=
  [("videos.list", 1), ("search.list", 100), ("commentThreads.list", 1),
   ("channels.list", 1), ("videos.update", 50), ("thumbnails.set", 50),
   ("playlistItems.list", 1)]

/-- The module-level quota globals: `estimated_units`, `last_quota_date_pt`,
`per_method_today`. -/
structure QuotaState where
  estimated_units : Int
  last_quota_date_pt : Int
  per_method_today : List (String × Int)
  deriving Repr, DecidableEq

/-- Python `int(mult or 1)`: a zero multiplier is falsy in Python and becomes 1. -/
def multOr1 (mult : Int) : Int :=
  if mult = 0 then 1 else mult

/-- Source expression `API_COSTS.get(method, 0) * int(mult or 1)`. -/
def quotaCost (method : String) (mult : Int) : Int :=
  dictGet API_COSTS method 0 * multOr1 mult

/-- The Pacific-day rollover reset that both `add_quota_usage` and
`load_quota` perform: when the stored day key is earlier than today's Pacific
date, zero both spend counters and advance the day key. -/
def quota_rollover (today : Int) (s : QuotaState) : QuotaState :=
  if s.last_quota_date_pt < today then
    { estimated_units := 0, last_quota_date_pt := today, per_method_today := [] }
  else s

/-- Source `add_quota_usage(method, mult)`: roll the day over at PT midnight, then
charge and record the cost; returns the charged cost with the new state.
(`save_quota()` and the GUI refresh are I/O, omitted.) -/
def add_quota_usage (today : Int) (method : String) (mult : Int)
    (s : QuotaState) : Int × QuotaState :=
  let s := quota_rollover today s
  let cost := quotaCost method mult
  (cost,
   { estimated_units := s.estimated_units + cost,
     last_quota_date_pt := s.last_quota_date_pt,
     per_method_today :=
       dictSet s.per_method_today method (dictGet s.per_method_today method 0 + cost) })

/-- Source `remaining_quota()`: `max(0, DAILY_QUOTA_LIMIT - int(estimated_units))`.
Note: reads the stored counter only — there is no date parameter because the
source performs no rollover check here. -/
def remaining_quota (s : QuotaState) : Int :=
  max 0 (DAILY_QUOTA_LIMIT - s.estimated_units)

/-- Source `mark_quota_exhausted()`: sets `estimated_units` to the cap; the
per-method map and the day key are left untouched. -/
def mark_quota_exhausted (s : QuotaState) : QuotaState :=
  { s with estimated_units := DAILY_QUOTA_LIMIT }

/-- Decoded content of `quota_tracker.json`: `date_pt` (absent or empty keeps
the current day key), `units`, `per_method`. -/
structure QuotaFile where
  date_pt : Option Int
  units : Int
  per_method : List (String × Int)
  deriving Repr, DecidableEq

/-- Source `load_quota()`.  `file = none`: the file does not exist; `file = some none`:
reading/parsing raised (state kept, warning logged); `file = some (some f)`:
the decoded document.  After loading, the Pacific-day rollover check runs. -/
def load_quota (today : Int) (file : Option (Option QuotaFile))
    (s : QuotaState) : QuotaState :=
  quota_rollover today
    (match file with
     | some (some f) =>
         { estimated_units := f.units,
           last_quota_date_pt := f.date_pt.getD s.last_quota_date_pt,
           per_method_today := f.per_method }
     | _ => s)

/-! ## Conditional fetch client (`yt_get` / `fetch_video_details`, lines 164–365)

`fetch_video_details(video_id, etag)` performs one HTTP GET and classifies the
outcome.  The network is modelled by an oracle `String → DetailRes` giving, per
video id, the branch the Python code takes:
* `found etag2` — HTTP 200 with an item; `add_quota_usage("videos.list")` ran,
  returns `(items[0], new_etag)`;
* `unchanged` — HTTP 304; the charge ran, returns `(None, etag)`;
* `raiseQuota msg` — `yt_get` raised `QuotaExceeded` (429 or 403+quota marker)
  before the charge;
* `raiseOther msg` — `yt_get` raised a plain `RuntimeError` before the charge;
* `notFound` — HTTP 200 with no items: the charge ran, then
  `RuntimeError("Video not found: …")` was raised. -/

inductive DetailRes where
  | found (etag2 : Option String)
  | unchanged
  | raiseQuota (msg : String)
  | raiseOther (msg : String)
  | notFound
  deriving Repr, DecidableEq

/-- The exception classes a caller of `fetch_video_details` can observe:
`QuotaExceeded` versus any other `Exception`, with the Python message text. -/
inductive FetchErr where
  | quota (msg : String)
  | other (msg : String)
  deriving Repr, DecidableEq

/-- The message of the exception, as `str(e)` renders it. -/
def FetchErr.text : FetchErr → String
  | .quota msg => msg
  | .other msg => msg

/-- Detail payload: the parts of the returned item that callers read are not
needed by any claim, so the payload is opaque. -/
structure Details where
  deriving Repr, DecidableEq

/-- Source `fetch_video_details(video_id, etag)`: returns
`(details-or-None, new_etag)` or raises, threading the quota state through the
`add_quota_usage("videos.list")` call exactly where the source performs it. -/
def fetch_video_details (oracle : String → DetailRes) (today : Int)
    (video_id : String) (etag : Option String) (q : QuotaState) :
    Except FetchErr (Option Details × Option String) × QuotaState :=
  match oracle video_id with
  | .raiseQuota msg => (.error (.quota msg), q)
  | .raiseOther msg => (.error (.other msg), q)
  | .unchanged => (.ok (none, etag), (add_quota_usage today "videos.list" 1 q).2)
  | .found etag2 => (.ok (some {}, etag2), (add_quota_usage today "videos.list" 1 q).2)
  | .notFound =>
      (.error (.other ("Video not found: " ++ video_id)),
       (add_quota_usage today "videos.list" 1 q).2)

/-! ## Refresh scheduler (`refresh_stale`, lines 1819–1862) -/

/-- The `fetched_at` field of a cached record:
* `none` — key absent or falsy (`not last_fetch`);
* `some none` — present but `datetime.fromisoformat` raises on it;
* `some (some t)` — present and parses to instant `t`. -/
abbrev FetchedAt := Option (Option Int)

/-- A cached record, restricted to the fields `refresh_stale` branches on.
The derived metadata fields overwritten on a successful fetch are summarised
by `details`. -/
structure RVideo where
  video_id : String
  fetched_at : FetchedAt
  etag : Option String
  details : Option Details
  deriving Repr, DecidableEq

/-- Result of a `refresh_stale` pass, with a trace of the ids for which a
detail fetch was attempted (in order). -/
structure RefreshResult where
  videos : List RVideo
  updated : Nat
  errors : List String
  q : QuotaState
  fetch_trace : List String
  deriving Repr, DecidableEq

/-- One iteration of the `refresh_stale` loop body for record `v`:
`none` when the record is skipped with no network call, otherwise the
attempted fetch's effect on the record / counters. -/
def refresh_step (oracle : String → DetailRes) (today : Int) (now : Int)
    (cutoff : Int) (by_ids : List String) (removed : List String)
    (v : RVideo) (q : QuotaState) :
    Option (RVideo × Option String × QuotaState) :=
  if v.video_id ∈ removed then none
  else if by_ids ≠ [] ∧ v.video_id ∉ by_ids then none
  else
    let needs : Bool :=
      !by_ids.isEmpty ||
        match v.fetched_at with
        | none => true
        | some none => true
        | some (some ts) => decide (ts < cutoff)
    if needs = false then none
    else
      match fetch_video_details oracle today v.video_id v.etag q with
      | (.error e, q2) => some (v, some (v.video_id ++ ": " ++ e.text), q2)
      | (.ok (od, new_etag), q2) =>
          let v2 :=
            match od with
            | some d => { v with details := some d, etag := new_etag }
            | none => v
          some ({ v2 with fetched_at := some (some now) }, none, q2)

/-- The `for i, v in enumerate(videos)` loop of `refresh_stale`. -/
def refresh_loop (oracle : String → DetailRes) (today : Int) (now : Int)
    (cutoff : Int) (by_ids : List String) (removed : List String) :
    List RVideo → QuotaState → RefreshResult
  | [], q => { videos := [], updated := 0, errors := [], q := q, fetch_trace := [] }
  | v :: rest, q =>
      match refresh_step oracle today now cutoff by_ids removed v q with
      | none =>
          let r := refresh_loop oracle today now cutoff by_ids removed rest q
          { r with videos := v :: r.videos }
      | some (v2, err, q2) =>
          let r := refresh_loop oracle today now cutoff by_ids removed rest q2
          { videos := v2 :: r.videos,
            updated := (if err.isNone then 1 else 0) + r.updated,
            errors := err.toList ++ r.errors,
            q := r.q,
            fetch_trace := v.video_id :: r.fetch_trace }

/-- Source `refresh_stale(days, by_ids)`: cutoff is `now - days`; the cache is walked
once, each stale / explicitly requested record is re-fetched, per-item
exceptions of any class are appended to `errors` and the loop continues;
the cache is saved once at the end (I/O, omitted) and `(updated, errors)`
is returned — here together with the final record list, quota state and
fetch trace. -/
def refresh_stale (oracle : String → DetailRes) (today : Int) (now : Int)
    (days : Int) (by_ids : List String) (removed : List String)
    (videos : List RVideo) (q : QuotaState) : RefreshResult :=
  refresh_loop oracle today now (now - days) by_ids removed videos q

/-! ## Discovery (`fetch_latest`, lines 1864–1936; `fetch_all`, lines 1938–2012)

`fetch_list_by_channel` (search.list) is modelled by an oracle
`Nat → Except String Page` from the page index (0 = first call) to either the
decoded page or the message of a raised `QuotaExceeded`; on success the source
charges `add_quota_usage("search.list")` before returning the page.
`fetch_channel_details` is modelled as `Except String Unit` (it is
`lru_cache`d; a raised non-quota error would propagate uncaught and is outside
the claims). -/

/-- One `search.list` result item: `item["id"]["kind"] == "youtube#video"`
and `item["id"]["videoId"]`. -/
structure SearchItem where
  isVideo : Bool
  videoId : String
  deriving Repr, DecidableEq

/-- One decoded `search.list` page: its items and whether `nextPageToken`
is present. -/
structure Page where
  items : List SearchItem
  hasNext : Bool
  deriving Repr, DecidableEq

/-- State threaded through a discovery pass.  The cached records are
summarised by their ids (`ids_in_cache` and the appended record contents are
kept in lock-step by the source); `listCalls` counts issued `search.list`
calls. -/
structure DiscoverState where
  videos : List String
  added : Nat
  errors : List String
  q : QuotaState
  listCalls : Nat
  deriving Repr, DecidableEq

/-- The message `"Stopped early to conserve quota."` -/
def stopEarlyMsg : String := "Stopped early to conserve quota."

/-- The per-item body shared verbatim by `fetch_latest` and `fetch_all`:
skip non-videos and known/tombstoned ids, fetch details (no validator — the
id is new), append on success; `QuotaExceeded` saves the cache and returns
the whole pass (`Except.error`), any other exception is recorded and the
loop continues. -/
def discover_item (oracle : String → DetailRes) (today : Int)
    (removed : List String) (st : DiscoverState) (it : SearchItem) :
    Except DiscoverState DiscoverState :=
  if !it.isVideo then .ok st
  else if it.videoId ∈ st.videos ∨ it.videoId ∈ removed then .ok st
  else
    match fetch_video_details oracle today it.videoId none st.q with
    | (.error (.quota msg), q2) =>
        .error { st with
                 errors := st.errors ++ [msg ++ " while fetching video " ++ it.videoId],
                 q := q2 }
    | (.error (.other msg), q2) =>
        .ok { st with errors := st.errors ++ [it.videoId ++ ": " ++ msg], q := q2 }
    | (.ok (none, _), q2) => .ok { st with q := q2 }
    | (.ok (some _, _), q2) =>
        .ok { st with videos := st.videos ++ [it.videoId], added := st.added + 1, q := q2 }

/-- Loop `for item in data.get("items", [])`, with the early whole-pass return. -/
def discover_items (oracle : String → DetailRes) (today : Int)
    (removed : List String) : List SearchItem → DiscoverState →
    Except DiscoverState DiscoverState
  | [], st => .ok st
  | it :: rest, st =>
      match discover_item oracle today removed st it with
      | .error fin => .error fin
      | .ok st2 => discover_items oracle today removed rest st2

/-- Effect of a successful `fetch_list_by_channel` call on the state: the
`add_quota_usage("search.list")` charge, and one more issued listing call. -/
def charge_list (today : Int) (st : DiscoverState) : DiscoverState :=
  { st with q := (add_quota_usage today "search.list" 1 st.q).2,
            listCalls := st.listCalls + 1 }

/-- The pagination checkpoint of `fetch_latest` — the code between the end of
one page's item loop and the next `fetch_list_by_channel` call:
no next-page token breaks; otherwise, if the remaining budget is below the
cost of a `search.list` call, append the stopped-early message and break;
otherwise request the next page (a raised `QuotaExceeded` there is recorded
and breaks), charge for it, and continue via `next`. -/
def pagination_gate (today : Int) (listOracle : Nat → Except String Page)
    (pageIdx : Nat) (hasNext : Bool) (st : DiscoverState)
    (next : Page → DiscoverState → DiscoverState) : DiscoverState :=
  if hasNext = false then st
  else if remaining_quota st.q < dictGet API_COSTS "search.list" 100 then
    { st with errors := st.errors ++ [stopEarlyMsg] }
  else
    match listOracle pageIdx with
    | .error msg => { st with errors := st.errors ++ [msg ++ " during pagination"] }
    | .ok page2 => next page2 (charge_list today st)

/-- The pagination checkpoint of `fetch_all`: identical, but
`if max_pages and pages >= max_pages: break` runs first (`max_pages = 0`
models both `None` and `0`, which are equally falsy). -/
def fa_pagination_gate (today : Int) (listOracle : Nat → Except String Page)
    (pageIdx : Nat) (maxPages pages : Nat) (hasNext : Bool) (st : DiscoverState)
    (next : Page → DiscoverState → DiscoverState) : DiscoverState :=
  if maxPages ≠ 0 ∧ pages ≥ maxPages then st
  else pagination_gate today listOracle pageIdx hasNext st next

/-- The `while True` loop of `fetch_latest`; `fuel` bounds the pagination
depth (the modelled API serves finitely many pages), `pageIdx` indexes the
next `fetch_list_by_channel` call. -/
def fl_loop (oracle : String → DetailRes) (listOracle : Nat → Except String Page)
    (today : Int) (removed : List String) :
    Nat → Nat → Page → DiscoverState → DiscoverState
  | fuel, pageIdx, page, st =>
      match discover_items oracle today removed page.items st with
      | .error fin => fin
      | .ok st2 =>
          pagination_gate today listOracle pageIdx page.hasNext st2 (fun page2 st3 =>
            match fuel with
            | 0 => st3
            | fuel2 + 1 => fl_loop oracle listOracle today removed fuel2 (pageIdx + 1) page2 st3)

/-- The `while True` loop of `fetch_all`, with its page counter. -/
def fa_loop (oracle : String → DetailRes) (listOracle : Nat → Except String Page)
    (today : Int) (removed : List String) (maxPages : Nat) :
    Nat → Nat → Nat → Page → DiscoverState → DiscoverState
  | fuel, pageIdx, pages, page, st =>
      let pages2 := pages + 1
      match discover_items oracle today removed page.items st with
      | .error fin => fin
      | .ok st2 =>
          fa_pagination_gate today listOracle pageIdx maxPages pages2 page.hasNext st2
            (fun page2 st3 =>
              match fuel with
              | 0 => st3
              | fuel2 + 1 =>
                  fa_loop oracle listOracle today removed maxPages fuel2 (pageIdx + 1)
                    pages2 page2 st3)

/-- Source `fetch_latest(days)`: channel details, the first `search.list` call
(each returning early with a tagged error on `QuotaExceeded`), then the loop;
the cache is saved and `(added, errors)` returned — here the final
`DiscoverState`. -/
def fetch_latest (oracle : String → DetailRes)
    (listOracle : Nat → Except String Page) (channelRes : Except String Unit)
    (today : Int) (removed : List String) (cached : List String) (fuel : Nat)
    (q : QuotaState) : DiscoverState :=
  let st0 : DiscoverState :=
    { videos := cached, added := 0, errors := [], q := q, listCalls := 0 }
  match channelRes with
  | .error msg => { st0 with errors := [msg ++ " (channels.list)"] }
  | .ok _ =>
      let st1 := { st0 with q := (add_quota_usage today "channels.list" 1 st0.q).2 }
      match listOracle 0 with
      | .error msg => { st1 with errors := [msg ++ " (search.list)"] }
      | .ok page0 =>
          fl_loop oracle listOracle today removed fuel 1 page0 (charge_list today st1)

/-- Source `fetch_all(max_pages)`: as `fetch_latest` but with the page cap
(`fetch_all` issues the first `search.list` call before the channel fetch). -/
def fetch_all (oracle : String → DetailRes)
    (listOracle : Nat → Except String Page) (channelRes : Except String Unit)
    (today : Int) (removed : List String) (cached : List String)
    (maxPages : Nat) (fuel : Nat) (q : QuotaState) : DiscoverState :=
  let st0 : DiscoverState :=
    { videos := cached, added := 0, errors := [], q := q, listCalls := 0 }
  match listOracle 0 with
  | .error msg => { st0 with errors := [msg ++ " (search.list)"] }
  | .ok page0 =>
      match channelRes with
      | .error msg => { st0 with errors := [msg ++ " (channels.list)"] }
      | .ok _ =>
          let st1 := charge_list today
            { st0 with q := (add_quota_usage today "channels.list" 1 st0.q).2 }
          fa_loop oracle listOracle today removed maxPages fuel 1 0 page0 st1

/-! ## Progress composer (`deploy`'s `_p`, lines 1659–1669; `update_site`'s
`_prog`, lines 2505–2508)

`_p` keeps `last`, clamps each reported fraction to `[0, 1]`, replaces a value
below `last` by `last`, and delivers the result to the observer.  The float
arithmetic here is only comparison / max / min, which IEEE doubles perform
exactly, so rationals model it faithfully. -/

/-- Python `max(0.0, min(1.0, frac))`. -/
def clamp01 (x : ℚ) : ℚ := max 0 (min 1 x)

/-- One `_p(frac, msg)` call: the value delivered to the observer
(which also becomes the new `last`). -/
def prog_step (last f : ℚ) : ℚ :=
  if clamp01 f < last then last else clamp01 f

/-- The observed sequence produced by a run of reported fractions,
starting from a given `last`. -/
def prog_observe : ℚ → List ℚ → List ℚ
  | _, [] => []
  | last, f :: rest =>
      let r := prog_step last f
      r :: prog_observe r rest

/-- The full composer for one run: `last` starts at `0.0`. -/
def composeProgress (fs : List ℚ) : List ℚ := prog_observe 0 fs

/-! ## Render-diff-publish pipeline (`update_site`, lines 2503–2622;
`regenerate_sitemap`, lines 1631–1640)

The renderer (Jinja) is an external collaborator: a record's rendered page is
taken as a given string, and `slugify` (pure text normalisation) is an
abstract function parameter `slugifyF`.  The live `videos/` output directory
is modelled as the list of file names it contains. -/

/-- Source `SITE_URL` (default settings value). -/
def SITE_URL : String := "https://MartocciMayhem.com"

/-- A cached record, restricted to the fields the pipeline reads. -/
structure SiteVideo where
  video_id : String
  slug : String
  title : String
  deleted : Bool
  deriving Repr, DecidableEq

/-- Source `output_basename(v)` under the default `OUTPUT_NAMING = "slug"`:
`v.get("slug") or slugify(v.get("title","")) or (v.get("video_id") or "video")`
(the empty string models an absent/falsy field). -/
def output_basename (slugifyF : String → String) (v : SiteVideo) : String :=
  if v.slug ≠ "" then v.slug
  else if slugifyF v.title ≠ "" then slugifyF v.title
  else if v.video_id ≠ "" then v.video_id
  else "video"

/-- The records rendered and published:
`[v for v in videos_all if v.video_id not in removed_ids and not v.deleted]`. -/
def kept_videos (videosAll : List SiteVideo) (removed : List String) :
    List SiteVideo :=
  videosAll.filter (fun v => v.video_id ∉ removed ∧ v.deleted = false)

/-- The `force_rebuild` marker appended to a rendered page:
`"\n<!-- rebuild:" + utcnow().isoformat() + " -->"`. -/
def rebuild_marker (stamp : String) : String :=
  "\n<!-- rebuild:" ++ stamp ++ " -->"

/-- The content written for one record: the rendered page, plus the rebuild
marker when `force_rebuild` is set. -/
def rendered_content (force : Bool) (stamp : String) (html : String) : String :=
  if force then html ++ rebuild_marker stamp else html

/-- The `changed_files` entries contributed by one record of the
`update_videos` loop: the written content is compared to the baseline
(`(baseline or "") != (html or "")`, a missing file reading as `""`), and the
artifact path is recorded exactly when they differ. -/
def update_video_entries (force : Bool) (stamp : String) (html : String)
    (baseline : Option String) (path : String) : List String :=
  if (baseline.getD "") ≠ rendered_content force stamp html then [path] else []

/-- Write one file name into the modelled directory. -/
def write_file (files : List String) (name : String) : List String :=
  if name ∈ files then files else files ++ [name]

/-- The `update_videos` render loop's writes into the live `videos/`
directory (non-dry-run: `write_text(out_path, html)` per record). -/
def write_video_pages (slugifyF : String → String) (files : List String)
    (videos : List SiteVideo) : List String :=
  videos.foldl (fun fs v => write_file fs (output_basename slugifyF v ++ ".html")) files

/-- Python `fname.endswith(".html")`. -/
def endsWithHtml (s : String) : Bool :=
  decide (".html".data <:+ s.data)

/-- The file names `prune_orphan_pages` targets: for each removed id, the
basename from the (last-binding-wins) id-to-slug map — falling back to the id
itself — lower-cased, plus `".html"`. -/
def orphan_names (slugifyF : String → String) (videosAll : List SiteVideo)
    (removed : List String) : List String :=
  removed.map (fun i =>
    (((videosAll.reverse.find? (fun v => v.video_id = i)).map
        (output_basename slugifyF)).getD i).toLower ++ ".html")

/-- Source `prune_orphan_pages(removed_ids, videos_all)`: delete each targeted file
that exists. -/
def prune_orphan_pages (slugifyF : String → String) (files : List String)
    (videosAll : List SiteVideo) (removed : List String) : List String :=
  files.filter (fun f => !decide (f ∈ orphan_names slugifyF videosAll removed))

/-- Source `_prune_changed_slugs(videos_now)`: delete every `.html` file whose name
is not among the current records' output names. -/
def prune_changed_slugs (slugifyF : String → String) (files : List String)
    (videosNow : List SiteVideo) : List String :=
  let keep := videosNow.map (fun v => output_basename slugifyF v ++ ".html")
  files.filter (fun f => !endsWithHtml f || decide (f ∈ keep))

/-- Net effect of a non-dry-run `update_site` (with `update_videos`) on the
live `videos/` directory: render-loop writes, then orphan pruning, then
changed-slug pruning. -/
def update_site_files (slugifyF : String → String) (files0 : List String)
    (videosAll : List SiteVideo) (removed : List String) : List String :=
  let videos := kept_videos videosAll removed
  let files1 := write_video_pages slugifyF files0 videos
  let files2 := prune_orphan_pages slugifyF files1 videosAll removed
  prune_changed_slugs slugifyF files2 videos

/-- The ids of the records listed on the rendered index page
(`render_index` builds one entry per record it is given). -/
def index_entry_ids (videos : List SiteVideo) : List String :=
  videos.map (·.video_id)

/-- The url `SITE_URL + "/videos/" + output_basename(v) + ".html"`. -/
def video_url (slugifyF : String → String) (v : SiteVideo) : String :=
  SITE_URL ++ "/videos/" ++ output_basename slugifyF v ++ ".html"

/-- The `<loc>` values of the regenerated sitemap: the site root, then one
entry per record `regenerate_sitemap` is given. -/
def sitemap_locs (slugifyF : String → String) (videos : List SiteVideo) :
    List String :=
  SITE_URL :: videos.map (video_url slugifyF)

/-- The QuotaState invariant claimed by the spec:
`totalUnitsSpent == sum(perMethodSpent.values())`. -/
def quota_inv (s : QuotaState) : Prop :=
  s.estimated_units = dictValuesSum s.per_method_today

instance (s : QuotaState) : Decidable (quota_inv s) := by
  unfold quota_inv; infer_instance

/-- What C1 asserts `remaining_quota` computes: the remaining value after the
Pacific-day rollover reset has been applied.  Modelled from the claim's words,
for comparison with the source's `remaining_quota`. -/
def remaining_quota_claimed (today : Int) (s : QuotaState) : Int :=
  let s :=
    if s.last_quota_date_pt < today then
      { estimated_units := 0, last_quota_date_pt := today,
        per_method_today := [] : QuotaState }
    else s
  max 0 (DAILY_QUOTA_LIMIT - s.estimated_units)

/-! ## Helper lemmas -/

theorem dictValuesSum_dictSet (l : List (String × Int)) (k : String) (c : Int) :
    dictValuesSum (dictSet l k (dictGet l k 0 + c)) = dictValuesSum l + c := by
  induction l with
  | nil => simp [dictSet, dictGet, dictValuesSum]
  | cons p rest ih =>
      by_cases hp : p.1 = k
      · simp only [dictSet, dictGet, if_pos hp, dictValuesSum, List.map_cons,
          List.sum_cons]
        ring
      · simp only [dictSet, dictGet, if_neg hp, dictValuesSum, List.map_cons,
          List.sum_cons] at ih ⊢
        omega

theorem dictFind_dictSet_self (l : List (String × Int)) (k : String) (v : Int) :
    dictFind (dictSet l k v) k = some v := by
  induction l with
  | nil => simp [dictSet, dictFind]
  | cons p rest ih =>
      by_cases hp : p.1 = k <;> simp [dictSet, dictFind, hp, ih]

theorem dictGet_eq_dictFind (l : List (String × Int)) (k : String) (d : Int) :
    dictGet l k d = (dictFind l k).getD d := by
  induction l with
  | nil => simp [dictGet, dictFind]
  | cons p rest ih =>
      by_cases hp : p.1 = k <;> simp [dictGet, dictFind, hp, ih]

theorem apiCost_nonneg (m : String) : 0 ≤ dictGet API_COSTS m 0 := by
  show 0 ≤ dictGet [("videos.list", 1), ("search.list", 100),
    ("commentThreads.list", 1), ("channels.list", 1), ("videos.update", 50),
    ("thumbnails.set", 50), ("playlistItems.list", 1)] m 0
  simp only [dictGet]
  split <;> norm_num
  split <;> norm_num
  split <;> norm_num
  split <;> norm_num
  split <;> norm_num
  split <;> norm_num
  split <;> norm_num

theorem quotaCost_nonneg (m : String) (mult : Int) (h : 0 ≤ mult) :
    0 ≤ quotaCost m mult := by
  unfold quotaCost multOr1
  apply mul_nonneg (apiCost_nonneg m)
  by_cases h0 : mult = 0 <;> simp [h0, h]

theorem quota_rollover_not_lt (today : Int) (s : QuotaState) :
    ¬ (quota_rollover today s).last_quota_date_pt < today := by
  by_cases h : s.last_quota_date_pt < today <;> simp [quota_rollover, h]

theorem quota_rollover_inv (today : Int) (s : QuotaState) (h : quota_inv s) :
    quota_inv (quota_rollover today s) := by
  unfold quota_rollover
  split
  · rfl
  · exact h

/-! ## Claim C1 -/

/-- A quota state whose stored day key (day 0) is one Pacific day behind,
with 5 units spent. -/
def staleQ : QuotaState :=
  { estimated_units := 5, last_quota_date_pt := 0,
    per_method_today := [("videos.list", 5)] }

/-- C1 counterexample: on a stale state (`dateKey` = D, current Pacific date
= D+1, 5 units spent), the claim demands that a read of the remaining budget
reset the counters first and hence return the full cap, but the source's
`remaining_quota` performs no rollover check and returns `cap − 5`. -/
theorem C1_remaining_no_rollover_cx :
    staleQ.last_quota_date_pt < 1 ∧
    remaining_quota_claimed 1 staleQ = 10000 ∧
    remaining_quota staleQ = 9995 := by
  refine ⟨by norm_num [staleQ], ?_, ?_⟩ <;>
    norm_num [staleQ, remaining_quota_claimed, remaining_quota, DAILY_QUOTA_LIMIT]

/-- C1 (amended): the daily rollover check runs on every charge and on every
load of the persisted state — if the stored day key is earlier than the
current Pacific date, `add_quota_usage` resets both spend counters and
advances the day key before applying its own charge, and `load_quota` never
leaves a day key earlier than the current Pacific date — but `remaining_quota`
performs no rollover check: it is computed from the stored spend counter
alone, with no reference to the current date. -/
theorem C1_rollover_on_charge_and_load :
    (∀ (today : Int) (method : String) (mult : Int) (s : QuotaState),
      s.last_quota_date_pt < today →
        (add_quota_usage today method mult s).2 =
          { estimated_units := quotaCost method mult,
            last_quota_date_pt := today,
            per_method_today := [(method, quotaCost method mult)] }) ∧
    (∀ (today : Int) (file : Option (Option QuotaFile)) (s : QuotaState),
      ¬ (load_quota today file s).last_quota_date_pt < today) ∧
    (∀ s : QuotaState,
      remaining_quota s = max 0 (DAILY_QUOTA_LIMIT - s.estimated_units)) := by
  refine ⟨?_, ?_, fun _ => rfl⟩
  · intro today method mult s h
    simp only [add_quota_usage, quota_rollover, if_pos h]
    simp [dictSet, dictGet]
  · intro today file s
    unfold load_quota
    exact quota_rollover_not_lt today _

/-- Witness for C1: a concrete stale state, rolled over by a charge. -/
theorem C1_rollover_witness :
    ((0 : Int) < 3) ∧
    (add_quota_usage 3 "videos.list" 2 staleQ).2 =
      { estimated_units := 2, last_quota_date_pt := 3,
        per_method_today := [("videos.list", 2)] } := by
  refine ⟨by norm_num, ?_⟩
  have h := C1_rollover_on_charge_and_load.1 3 "videos.list" 2 staleQ
    (by norm_num [staleQ])
  rw [h]
  decide

/-! ## Claim C2 -/

/-- A sequence of n unit-multiplier `search.list` charges, all on day 0. -/
def chargeSeq : Nat → QuotaState → QuotaState
  | 0, s => s
  | n + 1, s => chargeSeq n (add_quota_usage 0 "search.list" 1 s).2

/-- The quota state after 101 plain `add_quota_usage("search.list")` charges
on a fresh day: 10100 units spent, 100 over the cap (no charge is refused, so
spend can cross the cap). -/
def overSpent : QuotaState :=
  chargeSeq 101
    { estimated_units := 0, last_quota_date_pt := 0, per_method_today := [] }

set_option maxRecDepth 8000 in
/-- C2 counterexample: after a sequence of charges totalling 10100 units,
`remaining_quota()` returns 0, not `cap − totalUnitsSpent = −100`: the
remaining value is floored at zero, so the claimed identity fails once spend
exceeds the cap. -/
theorem C2_remaining_floor_cx :
    overSpent.estimated_units = 10100 ∧
    remaining_quota overSpent = 0 ∧
    DAILY_QUOTA_LIMIT - overSpent.estimated_units = -100 := by
  decide

/-- C2 (amended): for every sequence of charges, `remaining_quota()` equals
`max(0, cap − totalUnitsSpent)` — the floor at zero makes it differ from
`cap − totalUnitsSpent` exactly when spend exceeds the cap — and, for charges
with a non-negative multiplier, `estimated_units` never decreases except on
the daily rollover reset (where it restarts from the new charge's own cost). -/
theorem C2_remaining_formula_and_monotone :
    (∀ s : QuotaState,
      remaining_quota s = max 0 (DAILY_QUOTA_LIMIT - s.estimated_units)) ∧
    (∀ (today : Int) (method : String) (mult : Int) (s : QuotaState),
      0 ≤ mult → ¬ s.last_quota_date_pt < today →
        s.estimated_units ≤ (add_quota_usage today method mult s).2.estimated_units) ∧
    (∀ (today : Int) (method : String) (mult : Int) (s : QuotaState),
      s.last_quota_date_pt < today →
        (add_quota_usage today method mult s).2.estimated_units =
          quotaCost method mult) := by
  refine ⟨fun _ => rfl, ?_, ?_⟩
  · intro today method mult s hm hroll
    have hc := quotaCost_nonneg method mult hm
    simp [add_quota_usage, quota_rollover, if_neg hroll]
    omega
  · intro today method mult s hroll
    simp [add_quota_usage, quota_rollover, if_pos hroll]

/-- Witness for C2: one concrete non-rollover charge never decreases spend. -/
theorem C2_monotone_witness :
    ((0 : Int) ≤ 1) ∧ ¬ ((5 : Int) < 5) ∧
    (staleQ.estimated_units ≤
      (add_quota_usage 0 "search.list" 1 staleQ).2.estimated_units) := by
  refine ⟨by norm_num, by norm_num, ?_⟩
  exact C2_remaining_formula_and_monotone.2.1 0 "search.list" 1 staleQ
    (by norm_num) (by norm_num [staleQ])

/-! ## Claim C3 -/

/-- C3 counterexample: a fresh ledger satisfies the invariant
`estimated_units == sum(per_method_today.values())`, but
`mark_quota_exhausted()` sets `estimated_units` to the cap without touching
`per_method_today`, breaking it. -/
theorem C3_mark_exhausted_breaks_inv_cx :
    quota_inv { estimated_units := 0, last_quota_date_pt := 0,
                per_method_today := [] } ∧
    ¬ quota_inv (mark_quota_exhausted
        { estimated_units := 0, last_quota_date_pt := 0,
          per_method_today := [] }) := by
  constructor
  · rfl
  · intro h
    simp only [quota_inv, mark_quota_exhausted, dictValuesSum, List.map_nil,
      List.sum_nil, DAILY_QUOTA_LIMIT] at h
    exact absurd h (by norm_num)

/-- C3 (amended): charging via `add_quota_usage` always preserves the
invariant `estimated_units == sum(per_method_today.values())` (the rollover
reset re-establishes it from zero), and `load_quota` preserves it whenever the
persisted document itself satisfies it; but `mark_quota_exhausted` sets
`estimated_units` to the cap without updating `per_method_today` and so breaks
the invariant whenever the recorded per-method spend does not already sum to
the cap. -/
theorem C3_charge_load_preserve_inv :
    (∀ (today : Int) (method : String) (mult : Int) (s : QuotaState),
      quota_inv s → quota_inv (add_quota_usage today method mult s).2) ∧
    (∀ (today : Int) (file : Option (Option QuotaFile)) (s : QuotaState),
      quota_inv s →
      (∀ f, file = some (some f) → f.units = dictValuesSum f.per_method) →
      quota_inv (load_quota today file s)) := by
  constructor
  · intro today method mult s hs
    have h2 := quota_rollover_inv today s hs
    unfold quota_inv at h2 ⊢
    simp [add_quota_usage, dictValuesSum_dictSet]
    omega
  · intro today file s hs hf
    unfold load_quota
    apply quota_rollover_inv
    rcases file with _ | (_ | f)
    · exact hs
    · exact hs
    · exact hf f rfl

/-- A consistent ledger state: 5 units spent, 5 recorded for `videos.list`. -/
def invQ : QuotaState :=
  { estimated_units := 5, last_quota_date_pt := 0,
    per_method_today := [("videos.list", 5)] }

/-- A consistent persisted quota document. -/
def invFile : QuotaFile :=
  { date_pt := some 0, units := 3, per_method := [("search.list", 3)] }

/-- Witness for C3: the invariant survives a concrete charge and a concrete
load. -/
theorem C3_inv_witness :
    quota_inv invQ ∧
    quota_inv (add_quota_usage 0 "search.list" 1 invQ).2 ∧
    quota_inv (load_quota 0 (some (some invFile)) invQ) := by
  have h0 : quota_inv invQ := by decide
  refine ⟨h0, ?_, ?_⟩
  · exact C3_charge_load_preserve_inv.1 0 "search.list" 1 _ h0
  · exact C3_charge_load_preserve_inv.2 0 _ _ h0 (by
      intro f hf
      cases hf
      decide)

/-! ## Claims C4 and C5: refresh scheduler -/

/-- The decision the `refresh_stale` loop body makes for one record, written
as the source writes it: skip tombstoned ids; with a non-empty `by_ids`, skip
ids outside it; then `needs = bool(by_ids) or absent or unparseable or stale`. -/
def refresh_pass_decision (cutoff : Int) (by_ids removed : List String)
    (v : RVideo) : Bool :=
  !decide (v.video_id ∈ removed) &&
  !decide (by_ids ≠ [] ∧ v.video_id ∉ by_ids) &&
  (!by_ids.isEmpty ||
    match v.fetched_at with
    | none => true
    | some none => true
    | some (some ts) => decide (ts < cutoff))

/-- The error message (if any) one attempted detail fetch contributes to the
pass error list: `video_id ++ ": " ++ str(e)`. -/
def refresh_err (oracle : String → DetailRes) (v : RVideo) : Option String :=
  match oracle v.video_id with
  | .raiseQuota msg => some (v.video_id ++ ": " ++ msg)
  | .raiseOther msg => some (v.video_id ++ ": " ++ msg)
  | .notFound => some (v.video_id ++ ": " ++ ("Video not found: " ++ v.video_id))
  | .found _ => none
  | .unchanged => none

/-- The record contents after one attempted fetch: all derived fields and the
validator are overwritten on success, only `fetched_at` is bumped on a 304,
and the record is untouched when the fetch raised. -/
def refresh_upd (oracle : String → DetailRes) (now : Int) (v : RVideo) : RVideo :=
  match oracle v.video_id with
  | .found etag2 => { v with details := some {}, etag := etag2,
                             fetched_at := some (some now) }
  | .unchanged => { v with fetched_at := some (some now) }
  | _ => v

/-- The quota state after one attempted fetch: charged for `videos.list`
unless `yt_get` raised before the charge. -/
def refresh_charged (oracle : String → DetailRes) (today : Int) (v : RVideo)
    (q : QuotaState) : QuotaState :=
  match oracle v.video_id with
  | .raiseQuota _ => q
  | .raiseOther _ => q
  | _ => (add_quota_usage today "videos.list" 1 q).2

theorem refresh_step_spec (oracle : String → DetailRes) (today now cutoff : Int)
    (by_ids removed : List String) (v : RVideo) (q : QuotaState) :
    (refresh_pass_decision cutoff by_ids removed v = false ∧
       refresh_step oracle today now cutoff by_ids removed v q = none) ∨
    (refresh_pass_decision cutoff by_ids removed v = true ∧
       refresh_step oracle today now cutoff by_ids removed v q =
         some (refresh_upd oracle now v, refresh_err oracle v,
               refresh_charged oracle today v q)) := by
  by_cases h1 : v.video_id ∈ removed
  · left
    constructor
    · simp [refresh_pass_decision, h1]
    · simp [refresh_step, h1]
  by_cases h2 : by_ids ≠ [] ∧ v.video_id ∉ by_ids
  · left
    constructor
    · simp only [refresh_pass_decision, decide_eq_true_eq]
      simp [h2]
    · simp [refresh_step, h1, h2]
  have hneeds :
      (!by_ids.isEmpty ||
        match v.fetched_at with
        | none => true
        | some none => true
        | some (some ts) => decide (ts < cutoff)) =
      refresh_pass_decision cutoff by_ids removed v := by
    simp [refresh_pass_decision, h1, h2]
  rcases hn : (!by_ids.isEmpty ||
      match v.fetched_at with
      | none => true
      | some none => true
      | some (some ts) => decide (ts < cutoff)) with _ | _
  · left
    constructor
    · rw [← hneeds, hn]
    · simp [refresh_step, h1, h2, hn]
  · right
    constructor
    · rw [← hneeds, hn]
    · rcases ho : oracle v.video_id with etag2 | _ | msg | msg | _ <;>
        simp [refresh_step, h1, h2, hn, fetch_video_details, ho, refresh_err,
          refresh_upd, refresh_charged, FetchErr.text]

theorem refresh_loop_chars (oracle : String → DetailRes) (today now cutoff : Int)
    (by_ids removed : List String) :
    ∀ (videos : List RVideo) (q : QuotaState),
      (refresh_loop oracle today now cutoff by_ids removed videos q).fetch_trace =
        (videos.filter (refresh_pass_decision cutoff by_ids removed)).map
          (·.video_id) ∧
      (refresh_loop oracle today now cutoff by_ids removed videos q).errors =
        (videos.filter (refresh_pass_decision cutoff by_ids removed)).filterMap
          (refresh_err oracle) ∧
      (refresh_loop oracle today now cutoff by_ids removed videos q).updated =
        ((videos.filter (refresh_pass_decision cutoff by_ids removed)).filter
          (fun v => (refresh_err oracle v).isNone)).length := by
  intro videos
  induction videos with
  | nil => intro q; simp [refresh_loop]
  | cons v rest ih =>
      intro q
      rcases refresh_step_spec oracle today now cutoff by_ids removed v q with
        ⟨hdec, hstep⟩ | ⟨hdec, hstep⟩
      · simp only [refresh_loop, hstep, List.filter_cons, hdec, if_neg,
          Bool.false_eq_true, not_false_iff]
        exact ih q
      · rcases ih (refresh_charged oracle today v q) with ⟨iht, ihe, ihu⟩
        rcases herr : refresh_err oracle v with _ | msg <;>
          simp [refresh_loop, hstep, List.filter_cons, hdec, herr, iht, ihe,
            ihu, List.filterMap_cons] <;>
          omega

/-- The refresh decision as C4 must be amended to read: when `by_ids` is
given, a (non-tombstoned) record is re-fetched exactly when its id is in
`by_ids` — staleness and a missing `fetched_at` are not considered; only when
`by_ids` is not given is a record re-fetched exactly when `fetched_at` is
absent, unparseable, or earlier than the cutoff. -/
def needs_refresh_amended (cutoff : Int) (by_ids removed : List String)
    (v : RVideo) : Bool :=
  if v.video_id ∈ removed then false
  else if by_ids.isEmpty then
    match v.fetched_at with
    | none => true
    | some none => true
    | some (some ts) => decide (ts < cutoff)
  else decide (v.video_id ∈ by_ids)

theorem refresh_decision_eq_amended (cutoff : Int) (by_ids removed : List String)
    (v : RVideo) :
    refresh_pass_decision cutoff by_ids removed v =
      needs_refresh_amended cutoff by_ids removed v := by
  unfold refresh_pass_decision needs_refresh_amended
  by_cases h1 : v.video_id ∈ removed
  · simp [h1]
  · cases hb : by_ids with
    | nil => simp [h1, hb]
    | cons a l =>
        by_cases h3 : v.video_id ∈ a :: l <;> simp [h1, hb, h3]

/-- A never-fetched, non-tombstoned cached record. -/
def C4video : RVideo :=
  { video_id := "b", fetched_at := none, etag := none, details := none }

/-- An oracle whose every detail fetch reports HTTP 304. -/
def allUnchangedOracle : String → DetailRes := fun _ => .unchanged

/-- An empty quota ledger on day 0. -/
def qZero : QuotaState :=
  { estimated_units := 0, last_quota_date_pt := 0, per_method_today := [] }

/-- C4 counterexample: record `"b"` has no `fetched_at` and is not
tombstoned, so by the claim it must be re-fetched even though `by_ids` names
only `"a"`; the source's pass, however, attempts no fetch at all (`by_ids`
acts as a hard filter, not an additional trigger). -/
theorem C4_by_ids_skips_stale_cx :
    C4video.fetched_at = none ∧
    C4video.video_id ∉ ([] : List String) ∧
    (refresh_stale allUnchangedOracle 0 0 7 ["a"] [] [C4video]
      qZero).fetch_trace = [] := by
  refine ⟨rfl, by simp, ?_⟩
  decide

/-- C4 (amended): in `refresh_stale(days, by_ids)` a detail fetch is attempted
for exactly the non-tombstoned records `v` with: `v.id ∈ by_ids` when `by_ids`
is given (regardless of staleness), and otherwise `fetched_at` absent,
unparseable, or earlier than `now − days`.  A stale or never-fetched record is
NOT refreshed when `by_ids` is given and names only other ids. -/
theorem C4_refresh_decision (oracle : String → DetailRes) (today now days : Int)
    (by_ids removed : List String) (videos : List RVideo) (q : QuotaState) :
    (refresh_stale oracle today now days by_ids removed videos q).fetch_trace =
      (videos.filter (needs_refresh_amended (now - days) by_ids removed)).map
        (·.video_id) := by
  unfold refresh_stale
  rw [(refresh_loop_chars oracle today now (now - days) by_ids removed videos q).1]
  congr 1
  exact List.filter_congr (fun v _ =>
    refresh_decision_eq_amended (now - days) by_ids removed v)

/-- An oracle whose fetch of `"a"` raises `QuotaExceeded` and whose other
fetches succeed. -/
def C5oracle : String → DetailRes := fun vid =>
  if vid = "a" then .raiseQuota "YouTube API quota exceeded" else .found none

/-- C5 counterexample: with two never-fetched records `"a"`, `"b"` and a
detail fetch of `"a"` raising `QuotaExceeded`, the pass does not stop: a
detail fetch is still attempted for the subsequent record `"b"` (and
succeeds), the quota error landing in the error list like any other. -/
theorem C5_quota_continues_cx :
    C5oracle "a" = .raiseQuota "YouTube API quota exceeded" ∧
    (refresh_stale C5oracle 0 0 7 [] []
      [{ video_id := "a", fetched_at := none, etag := none, details := none },
       { video_id := "b", fetched_at := none, etag := none, details := none }]
      qZero).fetch_trace = ["a", "b"] ∧
    (refresh_stale C5oracle 0 0 7 [] []
      [{ video_id := "a", fetched_at := none, etag := none, details := none },
       { video_id := "b", fetched_at := none, etag := none, details := none }]
      qZero).errors = ["a: YouTube API quota exceeded"] ∧
    (refresh_stale C5oracle 0 0 7 [] []
      [{ video_id := "a", fetched_at := none, etag := none, details := none },
       { video_id := "b", fetched_at := none, etag := none, details := none }]
      qZero).updated = 1 := by
  refine ⟨rfl, ?_, ?_, ?_⟩ <;> decide

/-- C5 (amended): a `QuotaExceeded` raised by a detail fetch inside a
`refresh_stale` pass is caught by the same generic per-item handler as any
transient error: the message is recorded as `id ++ ": " ++ error` in the error
list and the pass continues to the next id.  Consequently the set of
attempted fetches is independent of the fetch outcomes, the error list
collects exactly the failing fetches' messages, and the updated count is the
number of successful ones; the pass never stops early. -/
theorem C5_per_item_errors (oracle : String → DetailRes) (today now days : Int)
    (by_ids removed : List String) (videos : List RVideo) (q : QuotaState) :
    (refresh_stale oracle today now days by_ids removed videos q).errors =
      (videos.filter (refresh_pass_decision (now - days) by_ids removed)).filterMap
        (refresh_err oracle) ∧
    (refresh_stale oracle today now days by_ids removed videos q).updated =
      ((videos.filter (refresh_pass_decision (now - days) by_ids removed)).filter
        (fun v => (refresh_err oracle v).isNone)).length ∧
    (refresh_stale oracle today now days by_ids removed videos q).fetch_trace =
      (videos.filter (refresh_pass_decision (now - days) by_ids removed)).map
        (·.video_id) := by
  have h := refresh_loop_chars oracle today now (now - days) by_ids removed videos q
  exact ⟨h.2.1, h.2.2, h.1⟩

/-! ## Claim C6: pagination budget stop -/

/-- C6 (confirmed): in both discovery passes, at the checkpoint just before
the next page would be requested (a next-page token being present, and — for
`fetch_all` — the page cap not yet reached), if the remaining quota is below
the cost of a `search.list` call then no further listing call is issued
(`listCalls` is unchanged and the loop continuation `next` is never invoked),
the stopped-early message is appended to the error list, and the pass returns
normally with the records gathered so far. -/
theorem C6_pagination_budget_stop (today : Int)
    (listOracle : Nat → Except String Page) (pageIdx : Nat)
    (st : DiscoverState) (next : Page → DiscoverState → DiscoverState)
    (h : remaining_quota st.q < dictGet API_COSTS "search.list" 100) :
    pagination_gate today listOracle pageIdx true st next =
      { st with errors := st.errors ++ [stopEarlyMsg] } ∧
    (pagination_gate today listOracle pageIdx true st next).listCalls =
      st.listCalls ∧
    (pagination_gate today listOracle pageIdx true st next).videos = st.videos ∧
    (∀ (maxPages pages : Nat), ¬ (maxPages ≠ 0 ∧ pages ≥ maxPages) →
      fa_pagination_gate today listOracle pageIdx maxPages pages true st next =
        { st with errors := st.errors ++ [stopEarlyMsg] }) := by
  have hg : pagination_gate today listOracle pageIdx true st next =
      { st with errors := st.errors ++ [stopEarlyMsg] } := by
    unfold pagination_gate
    simp [h]
  refine ⟨hg, ?_, ?_, ?_⟩
  · rw [hg]
  · rw [hg]
  · intro maxPages pages hmp
    unfold fa_pagination_gate
    rw [if_neg hmp]
    exact hg

/-- A discovery state with 9950 units already spent: the remaining 50 units
are below the 100-unit cost of a `search.list` call. -/
def lowBudgetSt : DiscoverState :=
  { videos := ["v1"], added := 0, errors := [], listCalls := 1,
    q := { estimated_units := 9950, last_quota_date_pt := 0,
           per_method_today := [("search.list", 9950)] } }

/-- Witness for C6: the gates stop at a concrete low-budget state. -/
theorem C6_budget_stop_witness :
    remaining_quota lowBudgetSt.q < dictGet API_COSTS "search.list" 100 ∧
    pagination_gate 0 (fun _ => .ok { items := [], hasNext := false }) 1 true
      lowBudgetSt (fun _ s => s) =
      { lowBudgetSt with errors := [stopEarlyMsg] } ∧
    fa_pagination_gate 0 (fun _ => .ok { items := [], hasNext := false }) 1 0 3
      true lowBudgetSt (fun _ s => s) =
      { lowBudgetSt with errors := [stopEarlyMsg] } := by
  have h : remaining_quota lowBudgetSt.q < dictGet API_COSTS "search.list" 100 := by
    decide
  have hc := C6_pagination_budget_stop 0
    (fun _ => .ok { items := [], hasNext := false }) 1 lowBudgetSt
    (fun _ s => s) h
  exact ⟨h, hc.1, hc.2.2.2 0 3 (by simp)⟩

/-! ## String helpers -/

theorem str_data_inj {a b : String} (h : a.data = b.data) : a = b := by
  cases a
  cases b
  exact congrArg String.mk h

theorem str_append_right_cancel {a b c : String} (h : a ++ c = b ++ c) :
    a = b := by
  have h2 : a.data ++ c.data = b.data ++ c.data := by
    rw [← String.data_append, ← String.data_append, h]
  exact str_data_inj (List.append_cancel_right h2)

theorem str_append_left_cancel {a b c : String} (h : c ++ a = c ++ b) :
    a = b := by
  have h2 : c.data ++ a.data = c.data ++ b.data := by
    rw [← String.data_append, ← String.data_append, h]
  exact str_data_inj (List.append_cancel_left h2)

theorem endsWithHtml_append (b : String) : endsWithHtml (b ++ ".html") = true := by
  unfold endsWithHtml
  simp only [decide_eq_true_eq]
  rw [String.data_append]
  exact List.suffix_append _ _

theorem video_url_inj (slugifyF : String → String) (v w : SiteVideo)
    (h : video_url slugifyF v = video_url slugifyF w) :
    output_basename slugifyF v = output_basename slugifyF w := by
  unfold video_url at h
  exact str_append_left_cancel (str_append_right_cancel h)

theorem video_url_ne_root (slugifyF : String → String) (v : SiteVideo) :
    video_url slugifyF v ≠ SITE_URL := by
  intro h
  have hl := congrArg String.length h
  unfold video_url at hl
  rw [String.length_append, String.length_append, String.length_append] at hl
  have h8 : ("/videos/" : String).length = 8 := rfl
  have h5 : (".html" : String).length = 5 := rfl
  omega

/-! ## Claim C7: diff correctness -/

/-- C7 (confirmed): when the written content is byte-for-byte identical to
the existing live artifact and `force_rebuild` is off, the record contributes
no `changed_files` entry; with `force_rebuild` on, an otherwise-unchanged
record contributes exactly one entry, because the appended rebuild marker
makes the content differ from the baseline. -/
theorem C7_diff_correctness (stamp html path : String)
    (baseline : Option String) (hb : baseline = some html) :
    update_video_entries false stamp html baseline path = [] ∧
    (update_video_entries true stamp html baseline path).length = 1 := by
  subst hb
  constructor
  · simp [update_video_entries, rendered_content]
  · have hmark : (rebuild_marker stamp).length = stamp.length + 18 := by
      unfold rebuild_marker
      rw [String.length_append, String.length_append]
      have h14 : ("\n<!-- rebuild:" : String).length = 14 := rfl
      have h4 : (" -->" : String).length = 4 := rfl
      omega
    have hne : html ≠ html ++ rebuild_marker stamp := by
      intro h
      have hl := congrArg String.length h
      rw [String.length_append] at hl
      omega
    simp [update_video_entries, rendered_content, hne]

/-- Witness for C7: a concrete unchanged artifact. -/
theorem C7_diff_witness :
    update_video_entries false "2025-01-01T00:00:00" "<p>page</p>"
      (some "<p>page</p>") "videos/page.html" = [] ∧
    (update_video_entries true "2025-01-01T00:00:00" "<p>page</p>"
      (some "<p>page</p>") "videos/page.html").length = 1 :=
  C7_diff_correctness "2025-01-01T00:00:00" "<p>page</p>" "videos/page.html"
    (some "<p>page</p>") rfl

/-! ## Claim C8: orphan pruning -/

/-- C8 (confirmed): a record listed in the tombstone set has its artifact
absent from the live `videos/` directory after a non-dry-run `update_site`
(provided no surviving record renders to the same output basename — a slug
collision would legitimately keep the file alive for the other record), and
it appears in neither the index entries nor the sitemap locations, which are
built only from non-tombstoned, non-deleted records. -/
theorem C8_orphan_pruning (slugifyF : String → String) (files0 : List String)
    (videosAll : List SiteVideo) (removed : List String) (r : SiteVideo)
    (hr : r ∈ videosAll) (hrem : r.video_id ∈ removed)
    (hb : ∀ v ∈ kept_videos videosAll removed,
      output_basename slugifyF v ≠ output_basename slugifyF r) :
    (output_basename slugifyF r ++ ".html") ∉
      update_site_files slugifyF files0 videosAll removed ∧
    r.video_id ∉ index_entry_ids (kept_videos videosAll removed) ∧
    video_url slugifyF r ∉ sitemap_locs slugifyF (kept_videos videosAll removed) := by
  refine ⟨?_, ?_, ?_⟩
  · intro hmem
    simp only [update_site_files, prune_changed_slugs, List.mem_filter] at hmem
    rcases hmem with ⟨_, hp⟩
    rw [Bool.or_eq_true] at hp
    rcases hp with hp | hp
    · rw [Bool.not_eq_true', endsWithHtml_append] at hp
      cases hp
    · rw [decide_eq_true_eq, List.mem_map] at hp
      rcases hp with ⟨v, hv, hveq⟩
      exact hb v hv (str_append_right_cancel hveq)
  · intro hmem
    simp only [index_entry_ids, List.mem_map] at hmem
    rcases hmem with ⟨v, hv, hveq⟩
    simp only [kept_videos, List.mem_filter, decide_eq_true_eq] at hv
    exact hv.2.1 (hveq ▸ hrem)
  · intro hmem
    simp only [sitemap_locs, List.mem_cons] at hmem
    rcases hmem with hmem | hmem
    · exact video_url_ne_root slugifyF r hmem
    · rw [List.mem_map] at hmem
      rcases hmem with ⟨v, hv, hveq⟩
      exact hb v hv (video_url_inj slugifyF v r hveq)

/-- A tombstoned record and a surviving record for the C8 witness. -/
def goneVideo : SiteVideo :=
  { video_id := "r1", slug := "gone", title := "Gone", deleted := false }

/-- The surviving record of the C8 witness. -/
def stayVideo : SiteVideo :=
  { video_id := "v2", slug := "stay", title := "Stay", deleted := false }

/-- Witness for C8: concrete store, tombstones and directory. -/
theorem C8_orphan_witness :
    "gone.html" ∉
      update_site_files id ["gone.html", "stay.html"] [goneVideo, stayVideo]
        ["r1"] ∧
    "r1" ∉ index_entry_ids (kept_videos [goneVideo, stayVideo] ["r1"]) ∧
    video_url id goneVideo ∉
      sitemap_locs id (kept_videos [goneVideo, stayVideo] ["r1"]) := by
  have h := C8_orphan_pruning id ["gone.html", "stay.html"]
    [goneVideo, stayVideo] ["r1"] goneVideo (by simp) (by simp [goneVideo])
    (by
      intro v hv
      simp only [kept_videos] at hv
      fin_cases hv <;> decide)
  exact ⟨h.1, h.2.1, h.2.2⟩

/-! ## Claim C9: progress monotonicity -/

theorem prog_step_props (last f : ℚ) (h0 : 0 ≤ last) (h1 : last ≤ 1) :
    last ≤ prog_step last f ∧ 0 ≤ prog_step last f ∧ prog_step last f ≤ 1 := by
  unfold prog_step clamp01
  split <;> rename_i hc
  · exact ⟨le_refl _, h0, h1⟩
  · push_neg at hc
    refine ⟨hc, le_max_left _ _, ?_⟩
    exact max_le (by norm_num) (min_le_left _ _)

theorem prog_observe_props (fs : List ℚ) :
    ∀ last : ℚ, 0 ≤ last → last ≤ 1 →
      List.Chain' (· ≤ ·) (last :: prog_observe last fs) ∧
      ∀ y ∈ prog_observe last fs, 0 ≤ y ∧ y ≤ 1 := by
  induction fs with
  | nil => intro last _ _; simp [prog_observe]
  | cons f rest ih =>
      intro last h0 h1
      obtain ⟨hle, hr0, hr1⟩ := prog_step_props last f h0 h1
      obtain ⟨ihc, ihb⟩ := ih (prog_step last f) hr0 hr1
      constructor
      · exact List.chain'_cons.mpr ⟨hle, ihc⟩
      · intro y hy
        rcases List.mem_cons.mp hy with rfl | hy
        · exact ⟨hr0, hr1⟩
        · exact ihb y hy

/-- C9 (confirmed): every observed progress sequence of one run is clamped to
`[0, 1]` and monotonically non-decreasing — a reported value below the last
observed value is replaced by the last value — and the reported sequence
`[0.1, 0.05, 0.3, 0.3, 0.9, 0.2]` is observed as
`[0.1, 0.1, 0.3, 0.3, 0.9, 0.9]`. -/
theorem C9_progress_monotone :
    (∀ fs : List ℚ,
      List.Chain' (· ≤ ·) (composeProgress fs) ∧
      ∀ y ∈ composeProgress fs, 0 ≤ y ∧ y ≤ 1) ∧
    composeProgress [0.1, 0.05, 0.3, 0.3, 0.9, 0.2] =
      [0.1, 0.1, 0.3, 0.3, 0.9, 0.9] := by
  constructor
  · intro fs
    obtain ⟨hc, hb⟩ := prog_observe_props fs 0 le_rfl (by norm_num)
    exact ⟨(List.chain'_cons'.mp hc).2, hb⟩
  · norm_num [composeProgress, prog_observe, prog_step, clamp01, min_def,
      max_def]

/-- Witness for C9: the bounds at a concrete observed value. -/
theorem C9_progress_witness :
    (0.5 : ℚ) ∈ composeProgress [0.5] ∧ (0 : ℚ) ≤ 0.5 ∧ (0.5 : ℚ) ≤ 1 := by
  have hmem : (0.5 : ℚ) ∈ composeProgress [0.5] := by
    norm_num [composeProgress, prog_observe, prog_step, clamp01, min_def,
      max_def]
  exact ⟨hmem, (C9_progress_monotone.1 [0.5]).2 0.5 hmem⟩

/-! ## Claim C10 -/

/-- C10 (confirmed): charging a call-type name that is not in `API_COSTS`
succeeds: the charged cost is `API_COSTS.get(method, 0) * mult = 0`, so 0 is
returned, the total spend is unchanged apart from the rollover reset, and a
zero-valued entry for the method is recorded in `per_method_today`. -/
theorem C10_unknown_method_zero_cost (today : Int) (method : String)
    (mult : Int) (s : QuotaState)
    (hc : dictFind API_COSTS method = none)
    (hm : dictFind s.per_method_today method = none) :
    (add_quota_usage today method mult s).1 = 0 ∧
    (add_quota_usage today method mult s).2.estimated_units =
      (if s.last_quota_date_pt < today then 0 else s.estimated_units) ∧
    dictFind (add_quota_usage today method mult s).2.per_method_today method =
      some 0 := by
  have hcost : quotaCost method mult = 0 := by
    unfold quotaCost
    rw [dictGet_eq_dictFind, hc]
    simp
  have hget : dictGet (quota_rollover today s).per_method_today method 0 = 0 := by
    by_cases h : s.last_quota_date_pt < today
    · simp [quota_rollover, if_pos h, dictGet]
    · simp only [quota_rollover, if_neg h]
      rw [dictGet_eq_dictFind, hm]
      rfl
  by_cases hroll : s.last_quota_date_pt < today <;>
    refine ⟨hcost, ?_, ?_⟩
  · show (quota_rollover today s).estimated_units + quotaCost method mult =
      if s.last_quota_date_pt < today then 0 else s.estimated_units
    simp [quota_rollover, if_pos hroll, hcost]
  · show dictFind (dictSet (quota_rollover today s).per_method_today method
      (dictGet (quota_rollover today s).per_method_today method 0 +
        quotaCost method mult)) method = some 0
    rw [hcost, add_zero, hget]
    exact dictFind_dictSet_self _ _ _
  · show (quota_rollover today s).estimated_units + quotaCost method mult =
      if s.last_quota_date_pt < today then 0 else s.estimated_units
    simp [quota_rollover, if_neg hroll, hcost]
  · show dictFind (dictSet (quota_rollover today s).per_method_today method
      (dictGet (quota_rollover today s).per_method_today method 0 +
        quotaCost method mult)) method = some 0
    rw [hcost, add_zero, hget]
    exact dictFind_dictSet_self _ _ _

/-- Witness for C10: a concrete unknown call-type name. -/
theorem C10_unknown_method_witness :
    (add_quota_usage 0 "subscriptions.insert" 4 staleQ).1 = 0 ∧
    (add_quota_usage 0 "subscriptions.insert" 4 staleQ).2.estimated_units = 5 ∧
    dictFind (add_quota_usage 0 "subscriptions.insert" 4
      staleQ).2.per_method_today "subscriptions.insert" = some 0 := by
  have h := C10_unknown_method_zero_cost 0 "subscriptions.insert" 4 staleQ
    (by decide) (by decide)
  refine ⟨h.1, ?_, h.2.2⟩
  rw [h.2.1]
  norm_num [staleQ]

end MM
